import Mathlib

/-!
Verification of `panopto-oauth-client.py` (UniSotonLibrary/libguides-learning-objects).

The file shallowly embeds the two operations of `PanoptoClient` that the
claims concern:

* `get_folder_contents` (source lines 44-122): a pagination loop over an
  abstract server, modelled as a function `Nat → PageResponse α` from page
  numbers to responses, run with explicit fuel (the Python `while True`
  loop need not terminate for adversarial servers).
* `export_recordings_to_csv` (source lines 125-178): projection of fetched
  recordings to CSV rows, including the `csv` module's minimal-quoting
  serialization, and the `recording['Id']` lookup that raises `KeyError`
  when the identifier is absent.

Recordings are modelled with every consumed JSON field optional, mirroring
the `.get(key, default)` accesses of the source; durations are modelled as
natural numbers of seconds (the scope of the claims considered here).
-/

namespace Panopto

/-- One server response to a page request, as seen by the loop body of
`get_folder_contents`.  `ok results total` is a 2xx response with a
parseable JSON body whose `data.get('Results', [])` equals `results` and
whose `data.get('TotalNumberOfResults', 0)` equals `total` (the `.get`
defaults are applied at this parsing boundary).  `httpError` is a non-2xx
status (line 77: `raise_for_status`), `malformed` a body that fails JSON
decoding (line 84), `transportError` a `requests` transport failure
(line 114). -/
inductive PageResponse (α : Type) where
  | ok (results : List α) (total : Nat)
  | httpError
  | malformed
  | transportError
deriving DecidableEq

/-- The `while True` loop of `get_folder_contents` (lines 56-119), with
explicit fuel.  State: current `page` number, accumulator `acc`
(`all_recordings`), instrumentation counter `reqs` of requests issued, and
`lastTotal`, the value of the Python local `total_recordings` — `none`
while that variable is still unassigned (it is only assigned at line 95,
after a response parses).  Every error response breaks out of the loop
returning the state so far; `httpError` and `malformed` break before
line 95 runs, so they leave `lastTotal` unchanged.  A parsed page first
records `some total`, then breaks if its results are empty (line 101),
then extends the accumulator (line 105) and breaks if the accumulated
length reaches the declared total (line 108); otherwise the loop continues
with the next page number (line 112).  Returns `none` when the fuel runs
out, i.e. the loop has not terminated within `fuel` iterations. -/
def getFolderContentsLoop (server : Nat → PageResponse α) :
    Nat → Nat → List α → Nat → Option Nat → Option (List α × Nat × Option Nat)
  | 0, _, _, _, _ => none
  | fuel + 1, page, acc, reqs, lastTotal =>
    match server page with
    | .httpError => some (acc, reqs + 1, lastTotal)
    | .malformed => some (acc, reqs + 1, lastTotal)
    | .transportError => some (acc, reqs + 1, lastTotal)
    | .ok results total =>
      if results.isEmpty then some (acc, reqs + 1, some total)
      else if total ≤ (acc ++ results).length then
        some (acc ++ results, reqs + 1, some total)
      else getFolderContentsLoop server fuel (page + 1) (acc ++ results) (reqs + 1) (some total)

/-- Outcome of `get_folder_contents`.  `ok recordings requests` is a normal
return of `all_recordings` (the `requests` component is instrumentation
counting the page requests issued; the Python function returns only the
list).  `nameError` is the `NameError` raised at line 121, where the final
log line reads `total_recordings` although that local was never assigned —
this happens exactly when the loop exits before any page was successfully
parsed. -/
inductive FetchResult (α : Type) where
  | ok (recordings : List α) (requests : Nat)
  | nameError
deriving DecidableEq

/-- Embedding of `PanoptoClient.get_folder_contents` (lines 44-122) against an abstract
`server`, with explicit `fuel` bounding the number of loop iterations:
`none` means the loop did not terminate within `fuel` pages. -/
def get_folder_contents (server : Nat → PageResponse α) (fuel : Nat) :
    Option (FetchResult α) :=
  match getFolderContentsLoop server fuel 1 [] 0 none with
  | none => none
  | some (_, _, none) => some .nameError
  | some (acc, reqs, some _) => some (.ok acc reqs)

/-- The recordings list actually returned to the Python caller: the
function returns the bare list `all_recordings` (line 122), with no
marker of whether the fetch completed or aborted partway. -/
def pythonReturn : Option (FetchResult α) → Option (List α)
  | some (.ok recs _) => some recs
  | some .nameError => none
  | none => none

/-- One recording object from a `Results` array.  Each field consumed by
the exporter is optional, mirroring the `.get` accesses at lines 155 and
163-172 (and the bare `recording['Id']` at line 161). -/
structure Recording where
  Name : Option String
  Id : Option String
  Duration : Option Nat
  CreatedDate : Option String
  ParentFolderId : Option String
  ViewerCount : Option Nat
  State : Option String
deriving DecidableEq

/-- One CSV row, fields in the order of `fieldnames` (lines 138-147).
`Views` is a string because the `csv` module stringifies the integer
written at line 169. -/
structure Row where
  Name : String
  ID : String
  Duration : String
  Created : String
  Folder : String
  Views : String
  Status : String
  URL : String
deriving DecidableEq

/-- Python's `f"{n:02d}"` for a natural number: zero-pad to a minimum
width of two digits (numbers of three or more digits are rendered in
full). -/
def pad2 (n : Nat) : String :=
  if n < 10 then "0" ++ toString n else toString n

/-- The duration formatting of lines 156-159:
`hours = d // 3600`, `minutes = (d % 3600) // 60`, `seconds = d % 60`,
joined as `f"{hours:02d}:{minutes:02d}:{seconds:02d}"`. -/
def formatDuration (d : Nat) : String :=
  pad2 (d / 3600) ++ ":" ++ pad2 (d % 3600 / 60) ++ ":" ++ pad2 (d % 60)

/-- The viewer URL of line 161:
`f"{self.server_url}/Panopto/Pages/Viewer.aspx?id={recording['Id']}"`. -/
def recordingUrl (server_url id : String) : String :=
  server_url ++ "/Panopto/Pages/Viewer.aspx?id=" ++ id

/-- The body of the per-recording loop at lines 154-172.  Line 161 indexes
`recording['Id']` directly: if the identifier is absent a `KeyError` is
raised before the row is written, modelled as `none`.  Otherwise the row
is built with the defaults of lines 155 and 163-172. -/
def buildRow (server_url : String) (rec : Recording) : Option Row :=
  match rec.Id with
  | none => none
  | some id =>
    some ⟨rec.Name.getD "", id, formatDuration (rec.Duration.getD 0),
      rec.CreatedDate.getD "", rec.ParentFolderId.getD "",
      toString (rec.ViewerCount.getD 0), rec.State.getD "",
      recordingUrl server_url id⟩

/-- Whether the `csv` module's default `QUOTE_MINIMAL` dialect must quote
a field: it contains the delimiter, the quote character, or a line
break. -/
def needsQuote (s : String) : Bool :=
  s.any fun c => c = ',' || c = '"' || c = '\n' || c = '\r'

/-- Serialize one CSV field under `QUOTE_MINIMAL`: quoted with internal
quotes doubled when needed, verbatim otherwise. -/
def csvField (s : String) : String :=
  if needsQuote s then "\"" ++ s.replace "\"" "\"\"" ++ "\"" else s

/-- One CSV line: comma-joined fields with the `csv` module's default
`\r\n` terminator (the file is opened with `newline=''` at line 150, so
the terminator reaches the file unchanged). -/
def csvLine (fields : List String) : String :=
  String.intercalate "," (fields.map csvField) ++ "\r\n"

/-- The fixed `fieldnames` list of lines 138-147. -/
def fieldnames : List String :=
  ["Name", "ID", "Duration", "Created", "Folder", "Views", "Status", "URL"]

/-- One data row as written by `writer.writerow` at lines 163-172, in
`fieldnames` order. -/
def rowLine (r : Row) : String :=
  csvLine [r.Name, r.ID, r.Duration, r.Created, r.Folder, r.Views, r.Status, r.URL]

/-- The full CSV file contents: header row (line 152) followed by one
line per recording, in fetch order. -/
def csvContent (rows : List Row) : String :=
  csvLine fieldnames ++ String.join (rows.map rowLine)

/-- Outcome of `export_recordings_to_csv`.  `noFile`: the early return of
lines 134-136, no file is created and no error is raised.  `file c`: a CSV
file with contents `c` was written.  `keyError`: a recording without an
identifier made line 161 raise `KeyError`, which the handler at line 176
re-raises (line 178); rows built before the failing one may already have
been written to the file.  `nameError`: `get_folder_contents` itself
raised (line 121), re-raised the same way. -/
inductive ExportResult where
  | noFile
  | file (content : String)
  | keyError
  | nameError
deriving DecidableEq

/-- Embedding of `export_recordings_to_csv` (lines 125-178) applied to an
already-fetched list of recordings. -/
def export_recordings_to_csv (server_url : String) (recordings : List Recording) :
    ExportResult :=
  if recordings.isEmpty then .noFile
  else
    match recordings.mapM (buildRow server_url) with
    | none => .keyError
    | some rows => .file (csvContent rows)

/-- The whole export pipeline: fetch the folder contents from `server`,
then export them (lines 129 and 150-172).  `none` when the pagination
loop exceeds `fuel`. -/
def exportFolder (server_url : String) (server : Nat → PageResponse Recording)
    (fuel : Nat) : Option ExportResult :=
  match get_folder_contents server fuel with
  | none => none
  | some .nameError => some .nameError
  | some (.ok recs _) => some (export_recordings_to_csv server_url recs)

/-- Page `k` (1-based) of a folder whose full, non-overlapping contents
are `recs`, served 100 at a time in server order. -/
def pageOf (recs : List α) (k : Nat) : List α :=
  (recs.drop ((k - 1) * 100)).take 100

/-- A well-formed paginated server for a folder with contents `recs`:
every page response is 2xx, declares `TotalNumberOfResults = recs.length`,
and the pages partition `recs` in order. -/
def goodServer (recs : List α) (k : Nat) : PageResponse α :=
  .ok (pageOf recs k) recs.length

/-- A server all of whose responses are well-formed (2xx, parseable),
described by the raw page function `srv : page ↦ (results, total)`. -/
def okServer (srv : Nat → List α × Nat) (k : Nat) : PageResponse α :=
  .ok (srv k).1 (srv k).2

/-- The recordings accumulated after the loop has extended
`all_recordings` with pages `1..k` of `srv`. -/
def accAfter (srv : Nat → List α × Nat) : Nat → List α
  | 0 => []
  | k + 1 => accAfter srv k ++ (srv (k + 1)).1

/-- The loop's stop condition evaluated at page `k` of an all-ok server:
the page's results are empty (line 101), or after extending, the
accumulated count reaches the declared total (line 108). -/
abbrev stopCond (srv : Nat → List α × Nat) (k : Nat) : Prop :=
  (srv k).1 = [] ∨ (srv k).2 ≤ (accAfter srv k).length

/-- The page function of a well-formed paginated folder, as raw
`(results, total)` pairs. -/
def goodPages (recs : List α) : Nat → List α × Nat :=
  fun k => (pageOf recs k, recs.length)

theorem goodServer_eq_okServer (recs : List α) :
    goodServer recs = okServer (goodPages recs) := rfl

/-- Advancing `getFolderContentsLoop` across `m` successfully parsed pages
on which the stop condition fails: the loop walks from page 1 to page
`m + 1`, accumulating pages `1..m` and issuing `m` requests, with the
Python local `total_recordings` holding the total declared by the last
parsed page. -/
theorem loop_advance (srv : Nat → PageResponse α) (srv0 : Nat → List α × Nat) :
    ∀ (m fuel r : Nat) (t : Option Nat),
      (∀ j, 1 ≤ j → j ≤ m → srv j = .ok (srv0 j).1 (srv0 j).2) →
      (∀ j, 1 ≤ j → j ≤ m → ¬ stopCond srv0 j) →
      m ≤ fuel →
      getFolderContentsLoop srv fuel 1 [] r t =
        getFolderContentsLoop srv (fuel - m) (m + 1) (accAfter srv0 m) (r + m)
          (if m = 0 then t else some (srv0 m).2) := by
  intro m
  induction m with
  | zero => intro fuel r t _ _ _; simp [accAfter]
  | succ m ih =>
    intro fuel r t hok hns hf
    rw [ih fuel r t (fun j h1 h2 => hok j h1 (by omega))
      (fun j h1 h2 => hns j h1 (by omega)) (by omega)]
    obtain ⟨f, hfeq⟩ : ∃ f, fuel - m = f + 1 := ⟨fuel - (m + 1), by omega⟩
    have hok1 := hok (m + 1) (by omega) (le_refl _)
    have hns1 := hns (m + 1) (by omega) (le_refl _)
    simp only [stopCond, not_or] at hns1
    obtain ⟨hne, hlt⟩ := hns1
    have hacc : accAfter srv0 (m + 1) = accAfter srv0 m ++ (srv0 (m + 1)).1 := rfl
    rw [hfeq]
    simp only [getFolderContentsLoop, hok1]
    rw [if_neg (by simpa using hne), if_neg (by rw [← hacc]; omega)]
    have : f = fuel - (m + 1) := by omega
    subst this
    simp [hacc, Nat.add_assoc]

/-- When the stop condition first holds at page `K` of an all-ok server,
the loop returns the recordings of pages `1..K` after exactly `K`
requests, with page `K`'s declared total recorded in `total_recordings`. -/
theorem loop_stop (srv0 : Nat → List α × Nat) (K : Nat) (hK : 1 ≤ K)
    (hstop : stopCond srv0 K)
    (hmin : ∀ j, 1 ≤ j → j < K → ¬ stopCond srv0 j)
    (fuel : Nat) (hf : K ≤ fuel) (r : Nat) (t : Option Nat) :
    getFolderContentsLoop (okServer srv0) fuel 1 [] r t =
      some (accAfter srv0 K, r + K, some (srv0 K).2) := by
  obtain ⟨K', rfl⟩ : ∃ K', K = K' + 1 := ⟨K - 1, by omega⟩
  rw [loop_advance (okServer srv0) srv0 K' fuel r t (fun j _ _ => rfl)
    (fun j h1 h2 => hmin j h1 (by omega)) (by omega)]
  obtain ⟨f, hfeq⟩ : ∃ f, fuel - K' = f + 1 := ⟨fuel - (K' + 1), by omega⟩
  rw [hfeq]
  have hacc : accAfter srv0 (K' + 1) = accAfter srv0 K' ++ (srv0 (K' + 1)).1 := rfl
  simp only [getFolderContentsLoop, okServer]
  by_cases hne : (srv0 (K' + 1)).1 = []
  · rw [if_pos (by simp [hne])]
    simp [hacc, hne, Nat.add_assoc]
  · rcases hstop with h1 | h2
    · exact absurd h1 hne
    · rw [if_neg (by simpa using hne), if_pos (by rw [← hacc]; exact h2)]
      simp [hacc, Nat.add_assoc]

/-- When the stop condition holds at no page of an all-ok server, the
loop never terminates: it exhausts any amount of fuel. -/
theorem loop_diverge (srv0 : Nat → List α × Nat)
    (hns : ∀ k, 1 ≤ k → ¬ stopCond srv0 k) (fuel r : Nat) (t : Option Nat) :
    getFolderContentsLoop (okServer srv0) fuel 1 [] r t = none := by
  rw [loop_advance (okServer srv0) srv0 fuel fuel r t (fun j _ _ => rfl)
    (fun j h1 _ => hns j h1) (le_refl fuel)]
  simp [getFolderContentsLoop, Nat.sub_self]

/-- The recordings accumulated from a well-formed paginated folder after
`m` pages are its first `m * 100` elements. -/
theorem accAfter_goodPages (recs : List α) :
    ∀ m, accAfter (goodPages recs) m = recs.take (m * 100) := by
  intro m
  induction m with
  | zero => simp [accAfter]
  | succ m ih =>
    simp only [accAfter, ih]
    rw [show (m + 1) * 100 = m * 100 + 100 from by ring, List.take_add]
    rfl

/-- On a well-formed paginated folder, the loop's stop condition holds at
page `j` exactly when pages `1..j` already cover the whole folder. -/
theorem stopCond_goodPages (recs : List α) (j : Nat) :
    stopCond (goodPages recs) j ↔ recs.length ≤ j * 100 := by
  unfold stopCond
  rw [accAfter_goodPages]
  constructor
  · rintro (h1 | h2)
    · simp only [goodPages, pageOf] at h1
      have hlen := congrArg List.length h1
      rw [List.length_take, List.length_drop] at hlen
      simp only [goodPages, List.length_nil] at hlen ⊢
      omega
    · simp only [goodPages, List.length_take] at h2
      omega
  · intro h
    right
    simp only [goodPages, List.length_take]
    omega

/-- C1 (amended): for every folder with `N ≥ 1` recordings served on
well-formed, non-overlapping pages of size 100, each declaring
`TotalNumberOfResults = N`, `get_folder_contents` returns exactly the `N`
recordings, in the server's page order, after issuing exactly
`⌈N / 100⌉` page requests.  (The claim's request count is wrong only for
`N = 0`, where the code still issues one request; see the
counterexample.) -/
theorem C1_pagination (recs : List α) (fuel : Nat) (hne : recs ≠ [])
    (hfuel : (recs.length + 99) / 100 ≤ fuel) :
    get_folder_contents (goodServer recs) fuel =
      some (.ok recs ((recs.length + 99) / 100)) := by
  have hpos : 0 < recs.length := List.length_pos.mpr hne
  have hK : 1 ≤ (recs.length + 99) / 100 := by omega
  have hcover : recs.length ≤ ((recs.length + 99) / 100) * 100 := by omega
  rw [goodServer_eq_okServer]
  unfold get_folder_contents
  rw [loop_stop (goodPages recs) ((recs.length + 99) / 100) hK
    ((stopCond_goodPages recs _).mpr hcover)
    (fun j _ h2 => by rw [stopCond_goodPages]; omega)
    fuel hfuel 0 none]
  simp [accAfter_goodPages, List.take_of_length_le hcover]

/-- Witness for C1 at a one-recording folder: one page request suffices
and returns the single recording. -/
theorem C1_pagination_witness :
    get_folder_contents (goodServer [0]) 1 = some (.ok [0] 1) := by
  have h := C1_pagination (α := Nat) [0] 1 (by decide) (by decide)
  simpa using h

/-- C1 as literally stated fails at `N = 0`: the loop issues one page
request to discover the folder is empty, while `⌈0 / 100⌉ = 0` requests
were claimed. -/
theorem C1_counterexample :
    get_folder_contents (goodServer ([] : List Nat)) 1 = some (.ok [] 1) ∧
      (([] : List Nat).length + 99) / 100 = 0 := by
  constructor
  · decide
  · decide

/-- C2: over any sequence of successfully parsed page responses, if the
stop condition — empty `Results`, or accumulated count at least the
declared total — first holds at page `K`, the loop stops exactly there,
having issued exactly `K` requests and accumulated pages `1..K`; and if
the condition never holds, the loop never terminates (it exhausts every
fuel bound). -/
theorem C2_termination_policy (srv : Nat → List α × Nat) :
    (∀ K, 1 ≤ K → stopCond srv K → (∀ j, 1 ≤ j → j < K → ¬ stopCond srv j) →
      ∀ fuel, K ≤ fuel →
        get_folder_contents (okServer srv) fuel = some (.ok (accAfter srv K) K)) ∧
    ((∀ k, 1 ≤ k → ¬ stopCond srv k) →
      ∀ fuel, get_folder_contents (okServer srv) fuel = none) := by
  constructor
  · intro K hK hstop hmin fuel hf
    unfold get_folder_contents
    rw [loop_stop srv K hK hstop hmin fuel hf 0 none]
    simp
  · intro hns fuel
    unfold get_folder_contents
    rw [loop_diverge srv hns fuel 0 none]

/-- Witness for C2 on a server whose first page already covers its
declared total of 1: the loop stops after exactly one request. -/
theorem C2_termination_policy_witness :
    get_folder_contents (okServer fun _ => ([0], 1)) 1 = some (.ok [0] 1) := by
  have h := (C2_termination_policy (fun _ => ([0], 1))).1 1 (le_refl 1)
    (by right; simp [accAfter])
    (by intro j h1 h2; exact absurd h2 (by omega)) 1 (le_refl 1)
  simpa [accAfter] using h

/-- Whether a page response makes the loop body raise: a non-2xx status,
a transport failure, or an unparseable body. -/
def isError : PageResponse α → Bool
  | .ok _ _ => false
  | .httpError => true
  | .malformed => true
  | .transportError => true

/-- C3 (amended): if pages `1..k-1` parse successfully without reaching a
stop condition and page `k` (`k ≥ 2`) fails — non-2xx status, transport
failure, or unparseable body — `get_folder_contents` aborts at page `k`
with no retry (exactly `k` requests issued) and returns exactly the
recordings accumulated from pages `1..k-1`.  The partial list is returned
as a plain list, not distinguishable by the caller from a full-success
return (see the counterexample); and for `k = 1` the function raises
`NameError` instead of returning the empty accumulation. -/
theorem C3_error_abort (srv : Nat → PageResponse α) (srv0 : Nat → List α × Nat)
    (k fuel : Nat) (hk : 2 ≤ k) (hf : k ≤ fuel)
    (hok : ∀ j, 1 ≤ j → j < k → srv j = .ok (srv0 j).1 (srv0 j).2)
    (hns : ∀ j, 1 ≤ j → j < k → ¬ stopCond srv0 j)
    (herr : isError (srv k) = true) :
    get_folder_contents srv fuel = some (.ok (accAfter srv0 (k - 1)) k) := by
  obtain ⟨k', rfl⟩ : ∃ k', k = k' + 1 := ⟨k - 1, by omega⟩
  unfold get_folder_contents
  rw [loop_advance srv srv0 k' fuel 0 none
    (fun j h1 h2 => hok j h1 (by omega)) (fun j h1 h2 => hns j h1 (by omega))
    (by omega)]
  obtain ⟨f, hfeq⟩ : ∃ f, fuel - k' = f + 1 := ⟨fuel - (k' + 1), by omega⟩
  rw [hfeq, if_neg (show ¬ (k' = 0) by omega)]
  cases hsrv : srv (k' + 1) with
  | ok results total => rw [hsrv] at herr; simp [isError] at herr
  | httpError => simp [getFolderContentsLoop, hsrv]
  | malformed => simp [getFolderContentsLoop, hsrv]
  | transportError => simp [getFolderContentsLoop, hsrv]

/-- Witness for C3: a server failing at page 2 after one full page makes
the fetch return page 1's single recording after exactly two requests. -/
theorem C3_error_abort_witness :
    get_folder_contents (fun p => if p = 1 then PageResponse.ok [7] 2 else .httpError) 2 =
      some (.ok [7] 2) := by
  have h := C3_error_abort (fun p => if p = 1 then PageResponse.ok [7] 2 else .httpError)
    (fun _ => ([7], 2)) 2 2 (le_refl 2) (le_refl 2)
    (by
      intro j h1 h2
      have hj : j = 1 := by omega
      subst hj
      rfl)
    (by
      intro j h1 h2
      have hj : j = 1 := by omega
      subst hj
      decide)
    (by decide)
  simpa [accAfter] using h

/-- C3 as stated fails on two points, both exhibited here concretely.
First, a run aborted by an HTTP error at page 2 (the server had declared
2 recordings, only 1 was accumulated) returns, as seen by the Python
caller, exactly the same bare list `[7]` as a fully successful run over a
one-recording folder: the partial result is not distinguishable from a
full-success return.  Second, at `k = 1` the function does not return the
empty accumulation of pages `1..0`: it raises `NameError` (line 121 reads
the never-assigned `total_recordings`). -/
theorem C3_counterexample :
    pythonReturn (get_folder_contents
        (fun p => if p = 1 then PageResponse.ok [7] 2 else .httpError) 5) =
      pythonReturn (get_folder_contents
        (fun p => PageResponse.ok (if p = 1 then [7] else []) 1) 5) ∧
    get_folder_contents (fun p => if p = 1 then PageResponse.ok [7] 2 else .httpError) 5 =
      some (.ok [7] 2) ∧
    get_folder_contents (fun p => PageResponse.ok (if p = 1 then [7] else []) 1) 5 =
      some (.ok [7] 1) ∧
    get_folder_contents (fun _ => (PageResponse.httpError : PageResponse Nat)) 5 =
      some .nameError := by
  refine ⟨?_, ?_, ?_, ?_⟩ <;> decide

/-- C10 evaluated at its failing input: when page 1 itself fails (non-2xx
status, transport failure, or unparseable body), the loop breaks before
`total_recordings` is ever assigned, and the final log line (source line
121) raises `NameError` out of `get_folder_contents` — an exception
propagating to the caller even though authentication succeeded and the
loop had started. -/
theorem C10_page1_failure (srv : Nat → PageResponse α) (fuel : Nat)
    (herr : isError (srv 1) = true) (hf : 1 ≤ fuel) :
    get_folder_contents srv fuel = some .nameError := by
  obtain ⟨f, rfl⟩ : ∃ f, fuel = f + 1 := ⟨fuel - 1, by omega⟩
  unfold get_folder_contents
  cases hsrv : srv 1 with
  | ok results total => rw [hsrv] at herr; simp [isError] at herr
  | httpError => simp [getFolderContentsLoop, hsrv]
  | malformed => simp [getFolderContentsLoop, hsrv]
  | transportError => simp [getFolderContentsLoop, hsrv]

/-- Witness for C10: a first page with an unparseable body makes the
function raise `NameError`. -/
theorem C10_page1_failure_witness :
    get_folder_contents (fun _ => (PageResponse.malformed : PageResponse Nat)) 1 =
      some .nameError :=
  C10_page1_failure (fun _ => (PageResponse.malformed : PageResponse Nat)) 1 rfl
    (le_refl 1)

/-- Python's `%02d` renders any value below 100 as exactly two characters. -/
theorem pad2_length_of_lt : ∀ n, n < 100 → (pad2 n).length = 2 := by decide

/-- C4 (amended): the Duration column is `d / 3600`, `d % 3600 / 60` and
`d % 60`, each zero-padded to a minimum width of two digits and joined by
colons; the result is two-digit H:M:S (8 characters) for every duration
below 100 hours; `Duration = 3725` yields exactly `"01:02:05"`, and a
missing Duration yields `"00:00:00"`.  (For `d ≥ 360000` seconds the
hours component has three or more digits, so the value is not two-digit
H:M:S; see the counterexample.) -/
theorem C4_duration_format :
    (∀ d : Nat, d < 360000 → (formatDuration d).length = 8) ∧
    formatDuration 3725 = "01:02:05" ∧
    (∀ (url : String) (rec : Recording) (id : String) (d : Nat),
      rec.Id = some id → rec.Duration = some d →
      (buildRow url rec).map Row.Duration = some (formatDuration d)) ∧
    (∀ (url : String) (rec : Recording) (id : String),
      rec.Id = some id → rec.Duration = none →
      (buildRow url rec).map Row.Duration = some "00:00:00") := by
  refine ⟨?_, by decide, ?_, ?_⟩
  · intro d hd
    have hc : (":" : String).length = 1 := rfl
    have h1 : d / 3600 < 100 := by omega
    have h2 : d % 3600 / 60 < 100 := by omega
    have h3 : d % 60 < 100 := by omega
    simp [formatDuration, String.length_append, hc,
      pad2_length_of_lt _ h1, pad2_length_of_lt _ h2, pad2_length_of_lt _ h3]
  · intro url rec id d hid hdur
    rcases rec with ⟨n, i, du, c, pf, v, st⟩
    simp only at hid hdur
    simp [buildRow, hid, hdur]
  · intro url rec id hid hdur
    rcases rec with ⟨n, i, du, c, pf, v, st⟩
    simp only at hid hdur
    simp [buildRow, hid, hdur]
    decide

/-- Witness for C4 at `d = 3725` and at a recording with no Duration. -/
theorem C4_duration_format_witness :
    (formatDuration 3725).length = 8 ∧
    (buildRow "s" ⟨none, some "x", some 3725, none, none, none, none⟩).map Row.Duration =
      some (formatDuration 3725) ∧
    (buildRow "s" ⟨none, some "x", none, none, none, none, none⟩).map Row.Duration =
      some "00:00:00" :=
  ⟨C4_duration_format.1 3725 (by decide),
   C4_duration_format.2.2.1 "s" ⟨none, some "x", some 3725, none, none, none, none⟩
     "x" 3725 rfl rfl,
   C4_duration_format.2.2.2 "s" ⟨none, some "x", none, none, none, none, none⟩
     "x" rfl rfl⟩

/-- C4 as stated fails for durations of 100 hours or more: at
`Duration = 360000` the formatted value is `"100:00:00"`, whose hours
component has three digits, so the value is not zero-padded two-digit
H:M:S (which would have 8 characters). -/
theorem C4_counterexample :
    formatDuration 360000 = "100:00:00" ∧ (formatDuration 360000).length ≠ 8 := by
  decide

/-- C5 (amended): for every recording that reaches `writer.writerow`,
missing optional fields default as claimed — Name, Status, Created and
Folder to the empty string, Views to `0` (rendered `"0"`), Duration to 0
seconds (rendered `"00:00:00"`).  A missing identifier, however, does not
yield a row with an empty ID: line 161 (`recording['Id']`) raises
`KeyError` before the row can be written, and the export aborts. -/
theorem C5_missing_field_defaults :
    (∀ (url : String) (rec : Recording) (id : String), rec.Id = some id →
      ((rec.Name = none → (buildRow url rec).map Row.Name = some "") ∧
       (rec.ViewerCount = none → (buildRow url rec).map Row.Views = some "0") ∧
       (rec.State = none → (buildRow url rec).map Row.Status = some "") ∧
       (rec.Duration = none → (buildRow url rec).map Row.Duration = some "00:00:00") ∧
       (rec.CreatedDate = none → (buildRow url rec).map Row.Created = some "") ∧
       (rec.ParentFolderId = none → (buildRow url rec).map Row.Folder = some ""))) ∧
    (∀ (url : String) (rec : Recording), rec.Id = none → buildRow url rec = none) ∧
    (∀ (url : String) (rec : Recording) (rest : List Recording), rec.Id = none →
      export_recordings_to_csv url (rec :: rest) = .keyError) := by
  refine ⟨?_, ?_, ?_⟩
  · intro url rec id hid
    rcases rec with ⟨n, i, du, c, pf, v, st⟩
    simp only at hid
    refine ⟨?_, ?_, ?_, ?_, ?_, ?_⟩ <;>
      (intro h; simp only at h; simp [buildRow, hid, h]) <;> decide
  · intro url rec hid
    rcases rec with ⟨n, i, du, c, pf, v, st⟩
    simp only at hid
    simp [buildRow, hid]
  · intro url rec rest hid
    rcases rec with ⟨n, i, du, c, pf, v, st⟩
    simp only at hid
    simp [export_recordings_to_csv, List.mapM, List.mapM.loop, buildRow, hid]

/-- Witness for C5: a recording with an identifier but no `ViewerCount`
gets `"0"` in the Views column; a recording with no identifier builds no
row. -/
theorem C5_missing_field_defaults_witness :
    (buildRow "s" ⟨none, some "x", none, none, none, none, none⟩).map Row.Views =
      some "0" ∧
    buildRow "s" ⟨none, none, none, none, none, none, none⟩ = none :=
  ⟨(C5_missing_field_defaults.1 "s" ⟨none, some "x", none, none, none, none, none⟩
      "x" rfl).2.1 rfl,
   C5_missing_field_defaults.2.1 "s" ⟨none, none, none, none, none, none, none⟩ rfl⟩

/-- C5 as stated fails for the identifier: a recording missing `Id` does
not yield a row with an empty ID — no row is built for it, and the export
aborts with `KeyError` (raised at line 161, re-raised at line 178). -/
theorem C5_counterexample :
    buildRow "https://s.example"
        ⟨some "Lecture", none, some 60, none, none, some 3, none⟩ = none ∧
    export_recordings_to_csv "https://s.example"
        [⟨some "Lecture", none, some 60, none, none, some 3, none⟩] = .keyError := by
  constructor
  · decide
  · decide

/-- C6: whenever the fetch returns zero recordings — in particular when
page 1 already answers with an empty `Results` array (which covers a
server declaring `TotalNumberOfResults = 0`) — the export takes the early
return of lines 134-136: it writes no output file and raises no error. -/
theorem C6_zero_recordings (url : String) (srv : Nat → PageResponse Recording)
    (fuel : Nat) :
    (∀ n, get_folder_contents srv fuel = some (.ok [] n) →
      exportFolder url srv fuel = some .noFile) ∧
    (∀ total, srv 1 = .ok [] total → 1 ≤ fuel →
      exportFolder url srv fuel = some .noFile) := by
  constructor
  · intro n h
    simp [exportFolder, h, export_recordings_to_csv]
  · intro total h1 hf
    obtain ⟨f, rfl⟩ : ∃ f, fuel = f + 1 := ⟨fuel - 1, by omega⟩
    simp [exportFolder, get_folder_contents, getFolderContentsLoop, h1,
      export_recordings_to_csv]

/-- Witness for C6 on a server declaring an empty folder. -/
theorem C6_zero_recordings_witness :
    exportFolder "u" (fun _ => PageResponse.ok ([] : List Recording) 0) 1 =
      some .noFile :=
  (C6_zero_recordings "u" (fun _ => PageResponse.ok ([] : List Recording) 0) 1).2
    0 rfl (le_refl 1)

/-- The loop states reached prior to termination: `Reaches srv page acc`
holds when the loop can arrive at the top of the iteration for `page`
with accumulator `acc`.  The `step` constructor is exactly the
continuation path of the body (lines 94-112): page `page` parsed with
nonempty results (line 101 does not break), the accumulator was extended
(line 105), and the accumulated count is still below the declared total
(line 108 does not break), so `page_number` is incremented (line 112). -/
inductive Reaches (srv : Nat → PageResponse α) : Nat → List α → Prop where
  | init : Reaches srv 1 []
  | step {page : Nat} {acc results : List α} {total : Nat} :
      Reaches srv page acc →
      srv page = .ok results total →
      results ≠ [] →
      (acc ++ results).length < total →
      Reaches srv (page + 1) (acc ++ results)

theorem Reaches.one_le {srv : Nat → PageResponse α} {p : Nat} {acc : List α}
    (h : Reaches srv p acc) : 1 ≤ p := by
  cases h with
  | init => exact le_refl 1
  | step => omega

/-- Every `Reaches` state is genuinely passed through by the fuel-indexed
loop: started from the initial state with enough fuel, the loop's run
factors through the state `(p, acc)`. -/
theorem Reaches.loop_reaches {srv : Nat → PageResponse α} {p : Nat} {acc : List α}
    (h : Reaches srv p acc) :
    ∀ fuel r (t : Option Nat), p - 1 ≤ fuel → ∃ t',
      getFolderContentsLoop srv fuel 1 [] r t =
        getFolderContentsLoop srv (fuel - (p - 1)) p acc (r + (p - 1)) t' := by
  induction h with
  | init => intro fuel r t _; exact ⟨t, by simp⟩
  | @step page acc results total hre hsrv hne hlt ih =>
    intro fuel r t hf
    have hp : 1 ≤ page := hre.one_le
    obtain ⟨t', ht'⟩ := ih fuel r t (by omega)
    obtain ⟨f, hfeq⟩ : ∃ f, fuel - (page - 1) = f + 1 := ⟨fuel - page, by omega⟩
    refine ⟨some total, ?_⟩
    rw [ht', hfeq]
    simp only [getFolderContentsLoop, hsrv]
    rw [if_neg (by simpa using hne), if_neg (by omega)]
    have h1 : f = fuel - (page + 1 - 1) := by omega
    have h2 : r + (page - 1) + 1 = r + (page + 1 - 1) := by omega
    rw [h1, h2]

/-- C7: at every loop state reached prior to termination, the accumulated
recording count does not exceed the most recently reported
`TotalNumberOfResults`: if the loop is about to request page `page + 1`
with accumulator `acc`, and page `page` reported `total`, then
`acc.length ≤ total`. -/
theorem C7_accumulation_invariant (srv : Nat → PageResponse α)
    (page : Nat) (acc results : List α) (total : Nat)
    (h : Reaches srv (page + 1) acc) (hpage : srv page = .ok results total) :
    acc.length ≤ total := by
  cases h with
  | init => simp
  | step hre hsrv hne hlt =>
    rw [hpage] at hsrv
    injection hsrv with hres htot
    omega

/-- Witness for C7: after one full page of one recording against a
declared total of 5, the accumulated count 1 is at most 5. -/
theorem C7_accumulation_invariant_witness : (([0] : List Nat)).length ≤ 5 :=
  C7_accumulation_invariant (fun _ => PageResponse.ok [0] 5) 1 [0] [0] 5
    (.step .init rfl (by decide) (by decide)) rfl

/-- C8 (amended): the URL column is derived from the server base URL and
the recording identifier as `<server>/Panopto/Pages/Viewer.aspx?id=<ID>`
(source line 161) — not as `<server>/Viewer?id=<ID>`; see the
counterexample. -/
theorem C8_url_derivation (url : String) (rec : Recording) (id : String)
    (hid : rec.Id = some id) :
    (buildRow url rec).map Row.URL =
      some (url ++ "/Panopto/Pages/Viewer.aspx?id=" ++ id) := by
  rcases rec with ⟨n, i, du, c, pf, v, st⟩
  simp only at hid
  simp [buildRow, hid, recordingUrl]

/-- Witness for C8 at a concrete server and identifier. -/
theorem C8_url_derivation_witness :
    (buildRow "https://e" ⟨none, some "a", none, none, none, none, none⟩).map Row.URL =
      some "https://e/Panopto/Pages/Viewer.aspx?id=a" := by
  have h := C8_url_derivation "https://e"
    ⟨none, some "a", none, none, none, none, none⟩ "a" rfl
  exact h.trans (by decide)

/-- C8 as stated fails: the URL written for identifier `abc123` on server
`https://s.example` is `https://s.example/Panopto/Pages/Viewer.aspx?id=abc123`,
which differs from the claimed `<server>/Viewer?id=<ID>` form. -/
theorem C8_counterexample :
    (buildRow "https://s.example"
        ⟨none, some "abc123", none, none, none, none, none⟩).map Row.URL =
      some "https://s.example/Panopto/Pages/Viewer.aspx?id=abc123" ∧
    (buildRow "https://s.example"
        ⟨none, some "abc123", none, none, none, none, none⟩).map Row.URL ≠
      some "https://s.example/Viewer?id=abc123" := by
  constructor
  · decide
  · decide

/-- C9: exporting is deterministic — two runs over identical sequences of
server page responses with identical configuration produce identical
results, in particular byte-identical CSV contents.  In this embedding
every byte of the output is a function of the page responses and the
server URL alone; the source consults no clock or randomness on the
export path. -/
theorem C9_deterministic (url : String) (srv₁ srv₂ : Nat → PageResponse Recording)
    (fuel : Nat) (h : ∀ k, srv₁ k = srv₂ k) :
    exportFolder url srv₁ fuel = exportFolder url srv₂ fuel := by
  have hsrv : srv₁ = srv₂ := funext h
  rw [hsrv]

/-- Witness for C9 on a concrete server. -/
theorem C9_deterministic_witness :
    exportFolder "u" (fun _ => PageResponse.ok ([] : List Recording) 0) 1 =
      exportFolder "u" (fun _ => PageResponse.ok ([] : List Recording) 0) 1 :=
  C9_deterministic "u" (fun _ => PageResponse.ok ([] : List Recording) 0)
    (fun _ => PageResponse.ok ([] : List Recording) 0) 1 (fun _ => rfl)

end Panopto
